import Mathlib

/-!
Shallow embedding of the JSCanvasGame sources (latest revision of the game
script plus the audio engine).  JavaScript numbers are modelled as rationals
(`ℚ`), JS property values as a small `JSValue` type, JS objects and Tiled
layers as Lean structures, and the per-frame mutation of the global
`player`/`keysPressed`/`camera`/`game` objects as functions on a `GameState`
record.  A frame that would throw a `TypeError` (reading a property of
`null`) is modelled by returning `none`.
-/

/-- Model of JavaScript `Math.round`: rounds to the nearest integer, with
ties (x.5) rounded toward positive infinity. -/
def jsRound (q : ℚ) : ℤ := ⌊q + 1/2⌋

/-- Evaluation helper for `jsRound` at concrete rationals. -/
theorem jsRound_eq (q : ℚ) (n : ℤ) (h1 : (n : ℚ) ≤ q + 1/2) (h2 : q + 1/2 < n + 1) :
    jsRound q = n := by
  unfold jsRound
  rw [Int.floor_eq_iff]
  exact ⟨h1, h2⟩

/-- A JavaScript value as stored in a Tiled property bag: a number, a string,
a boolean, or `null`. -/
inductive JSValue where
  | num (q : ℚ)
  | str (s : String)
  | boolean (b : Bool)
  | null
deriving DecidableEq, Repr

-- String constants appearing in the source (property names, type tags,
-- facing values, asset names).
def kType : String := "type"
def kDestinationX : String := "destinationX"
def kDestinationY : String := "destinationY"
def kDestinationMap : String := "destinationMap"
def kReboundTime : String := "reboundTime"
def kDoor : String := "door"
def kMove : String := "move"
def kMoveRebound : String := "moveRebound"
def kLeft : String := "left"
def kRight : String := "right"
def kDuckL : String := "duck_l"
def kDuckR : String := "duck_r"

/-- The `ImageData` of the player's collision mask: a flat RGBA byte array.
The alpha channel of pixel (x, y) sits at index `(y * width + x) * 4 + 3`,
exactly as indexed by `checkWallCollision` in the source. -/
structure ImageData where
  data : Nat → Nat

/-- A Tiled tile layer used as the collision bitmap: `width`/`height` in
cells and a flat row-major `data` array of tile ids (non-zero = solid). -/
structure CollisionLayer where
  width : Nat
  height : Nat
  data : Nat → Nat

/-- A Tiled object: a rectangle plus an optional list of named custom
properties (the `properties` array may be absent on an object). -/
structure TiledObject where
  x : ℚ
  y : ℚ
  width : ℚ
  height : ℚ
  properties : Option (List (String × JSValue))

/-- The fields of the raw Tiled map JSON read by `updateCamera`. -/
structure MapData where
  width : Nat
  height : Nat
  tilewidth : Nat
  tileheight : Nat
deriving DecidableEq, Repr

/-- One entry of `game.maps`: the raw map data, the cached current
interactable, the optional `Collision` layer and the objects of the optional
`Interactables` layer. -/
structure GameMap where
  mapData : MapData
  currentInteractable : Option TiledObject
  collisionLayer : Option CollisionLayer
  interactablesLayer : Option (List TiledObject)

/-- The global `game` object: maps keyed by name. -/
structure Game where
  maps : List (String × GameMap)

/-- The global `player` object.  `image` holds the name of the current
sprite asset; `collisionMap` is the per-pixel alpha mask. -/
structure Player where
  x : ℚ
  y : ℚ
  xVel : ℚ
  yVel : ℚ
  acc : ℚ
  terminalVel : ℚ
  facing : String
  location : String
  width : Nat
  height : Nat
  image : String
  collisionMap : ImageData

/-- The global `keysPressed` object: each key holds the 3-state latch
0 = released, 1 = held-but-overridden, 2 = primary direction (space is
0 or 1). -/
structure KeysPressed where
  up : Nat
  down : Nat
  left : Nat
  right : Nat
  space : Nat
deriving DecidableEq, Repr

/-- The global `camera` object; `width`/`height` are the canvas size. -/
structure Camera where
  x : ℚ
  y : ℚ
  width : ℚ
  height : ℚ
deriving DecidableEq, Repr

/-- The whole mutable state read and written by one frame. -/
structure GameState where
  player : Player
  keysPressed : KeysPressed
  camera : Camera
  game : Game

/-- Lookup `game.maps[loc]`. -/
def getMap (g : Game) (loc : String) : Option GameMap :=
  g.maps.lookup loc

/-- Lookup of a property name in the KV map built by `getProperties`
(`Object.fromEntries`): with duplicate names the later entry wins, hence the
reversal. -/
def propValue (props : List (String × JSValue)) (name : String) : Option JSValue :=
  props.reverse.lookup name

/-- The source's `undef`: true for JS `undefined` (a missing property,
modelled as `none`) and for `null`. -/
def undef : Option JSValue → Bool
  | none => true
  | some JSValue.null => true
  | _ => false

/-- JS `typeof v === 'number'`. -/
def isNumber : Option JSValue → Bool
  | some (JSValue.num _) => true
  | _ => false

/-- Numeric payload of a property value (only read on paths where
`verifyInteractable` has established the value is a number). -/
def asNum : Option JSValue → ℚ
  | some (JSValue.num q) => q
  | _ => 0

/-- String payload of a property value (only read on paths where the value
is known to be a string naming a loaded map). -/
def asStr : Option JSValue → String
  | some (JSValue.str s) => s
  | _ => ""

/-- Indexing `game.maps[v]` with a property value.  JS coerces the key to a
string; the loaded map names are plain identifiers that are never the string
form of a number or boolean, so only string keys can match. -/
def jsMapIndex (g : Game) (v : Option JSValue) : Option GameMap :=
  match v with
  | some (JSValue.str s) => getMap g s
  | _ => none

/-- The collision layer consulted by `checkWallCollision`: absent when the
player's location names no loaded map or that map has no Collision layer. -/
def activeCollisionLayer (st : GameState) : Option CollisionLayer :=
  (getMap st.game st.player.location).bind GameMap.collisionLayer

/-- Body of the double loop of `checkWallCollision` for one mask pixel
(x, y): skip fully transparent pixels, then flag a collision when the
rounded map coordinate is out of bounds or the bitmap cell there is
non-zero. -/
def pixelBlocked (p : Player) (layer : CollisionLayer) (playerX playerY : ℚ)
    (x y : Nat) : Bool :=
  if p.collisionMap.data ((y * p.width + x) * 4 + 3) = 0 then
    false
  else
    let mapX := jsRound (playerX + x)
    let mapY := jsRound (playerY + y)
    if mapX < 0 ∨ (layer.width : ℤ) ≤ mapX ∨ mapY < 0 ∨ (layer.height : ℤ) ≤ mapY then
      true
    else
      layer.data (mapY.toNat * layer.width + mapX.toNat) ≠ 0

/-- The source's `checkWallCollision(playerX, playerY)`: false when the
current map or its collision layer is missing, otherwise true exactly when
the row-major scan finds a blocked opaque pixel. -/
def checkWallCollision (st : GameState) (playerX playerY : ℚ) : Bool :=
  match activeCollisionLayer st with
  | none => false
  | some layer =>
    (List.range st.player.height).any fun y =>
      (List.range st.player.width).any fun x =>
        pixelBlocked st.player layer playerX playerY x y

/-- The overlap test of `checkInteractables`: the first interactable object
whose rectangle overlaps the player's bounding box, in list order. -/
def findInteractable (p : Player) (objs : List TiledObject) : Option TiledObject :=
  objs.find? fun obj =>
    decide (p.x < obj.x + obj.width) && decide (p.x + (p.width : ℚ) > obj.x) &&
    decide (p.y < obj.y + obj.height) && decide (p.y + (p.height : ℚ) > obj.y)

/-- Store a value into `currentInteractable` of the map stored under `loc`. -/
def setCurrentInteractable (g : Game) (loc : String) (v : Option TiledObject) : Game :=
  Game.mk (g.maps.map (fun kv =>
    (kv.1, if kv.1 = loc then { kv.2 with currentInteractable := v } else kv.2)))

/-- The source's `checkInteractables()`: a no-op when the location names no
map; otherwise stores the first overlapping interactable (or `none`) into
the current map's `currentInteractable`. -/
def checkInteractables (st : GameState) : GameState :=
  match getMap st.game st.player.location with
  | none => st
  | some m =>
    match m.interactablesLayer with
    | none => { st with game := setCurrentInteractable st.game st.player.location none }
    | some objs =>
      let found := findInteractable st.player objs
      { st with game := setCurrentInteractable st.game st.player.location found }

/-- The source's `verifyInteractable(interactable)`: the chain of early
`return false` validations over the destructured property bag. -/
def verifyInteractable (g : Game) (props : List (String × JSValue)) : Bool :=
  let type := propValue props kType
  let destinationX := propValue props kDestinationX
  let destinationY := propValue props kDestinationY
  let destinationMap := propValue props kDestinationMap
  let reboundTime := propValue props kReboundTime
  if type = some (JSValue.str kDoor) ∧ undef destinationMap then false
  else if type = some (JSValue.str kDoor) ∧ (jsMapIndex g destinationMap).isNone then false
  else if type = some (JSValue.str kMoveRebound) ∧ undef reboundTime then false
  else if type = some (JSValue.str kMoveRebound) ∧ ¬ isNumber reboundTime then false
  else if undef destinationX then false
  else if undef destinationY then false
  else if ¬ isNumber destinationX then false
  else if ¬ isNumber destinationY then false
  else true

/-- The source's `updateCamera()`: centre on the player's midpoint and clamp
to the map's pixel rectangle, unless the map fits inside the viewport in
both axes (then nothing is assigned) or no map is loaded. -/
def updateCamera (st : GameState) : GameState :=
  match getMap st.game st.player.location with
  | none => st
  | some m =>
    let mapWidth : ℚ := (m.mapData.width : ℚ) * (m.mapData.tilewidth : ℚ)
    let mapHeight : ℚ := (m.mapData.height : ℚ) * (m.mapData.tileheight : ℚ)
    if mapWidth ≤ st.camera.width ∧ mapHeight ≤ st.camera.height then st
    else
      let x := (st.player.x + (st.player.width : ℚ) / 2) - st.camera.width / 2
      let y := (st.player.y + (st.player.height : ℚ) / 2) - st.camera.height / 2
      { st with camera :=
        { st.camera with
          x := max 0 (min x (mapWidth - st.camera.width))
          y := max 0 (min y (mapHeight - st.camera.height)) } }

/-- A deferred `setTimeout` callback scheduled by the `moveRebound` branch:
fires after `delay` milliseconds and applies `run` to the player. -/
structure PendingRebound where
  delay : ℚ
  run : Player → Player

/-- The interaction branch of `updatePlayerPosition`, entered when space is
pressed over a cached interactable.  Space is consumed first; reading the
property bag of an object with no `properties` array would throw a
`TypeError` in JS, modelled as `none`.  A failed validation returns before
`updateCamera`; every successful route ends with `updateCamera`. -/
def interactionStep (st0 : GameState) (obj : TiledObject) :
    Option (GameState × Option PendingRebound) :=
  let st := { st0 with keysPressed := { st0.keysPressed with space := 0 } }
  match obj.properties with
  | none => none
  | some props =>
    let type := propValue props kType
    if verifyInteractable st.game props = false then
      some (st, none)
    else if type = some (JSValue.str kDoor) then
      let p := { st.player with
        location := asStr (propValue props kDestinationMap)
        x := asNum (propValue props kDestinationX)
        y := asNum (propValue props kDestinationY)
        xVel := 0
        yVel := 0 }
      some (updateCamera { st with player := p }, none)
    else if type = some (JSValue.str kMove) then
      let p := { st.player with
        x := asNum (propValue props kDestinationX)
        y := asNum (propValue props kDestinationY) }
      some (updateCamera { st with player := p }, none)
    else if type = some (JSValue.str kMoveRebound) then
      let oldX := st.player.x
      let oldY := st.player.y
      let p := { st.player with
        x := asNum (propValue props kDestinationX)
        y := asNum (propValue props kDestinationY) }
      let timer : PendingRebound :=
        { delay := asNum (propValue props kReboundTime)
          run := fun pl => { pl with x := oldX, y := oldY, xVel := 0, yVel := 0 } }
      some (updateCamera { st with player := p }, some timer)
    else
      some (updateCamera st, none)

/-- Vertical input-to-velocity mapping of `updatePlayerPosition`. -/
def nextYVel (k : KeysPressed) (p : Player) : ℚ :=
  if k.up ≠ 0 ∧ k.down ≠ 2 then max (p.yVel - p.acc) (-p.terminalVel)
  else if k.down ≠ 0 ∧ k.up ≠ 2 then min (p.yVel + p.acc) p.terminalVel
  else 0

/-- Horizontal input-to-velocity mapping of `updatePlayerPosition`. -/
def nextXVel (k : KeysPressed) (p : Player) : ℚ :=
  if k.left ≠ 0 ∧ k.right ≠ 2 then max (p.xVel - p.acc) (-p.terminalVel)
  else if k.right ≠ 0 ∧ k.left ≠ 2 then min (p.xVel + p.acc) p.terminalVel
  else 0

/-- Facing update of the horizontal section (assigning the current facing
again is the identity, so the guarded assignment is folded in). -/
def nextFacing (k : KeysPressed) (p : Player) : String :=
  if k.left ≠ 0 ∧ k.right ≠ 2 then kLeft
  else if k.right ≠ 0 ∧ k.left ≠ 2 then kRight
  else p.facing

/-- Sprite update of the horizontal section. -/
def nextImage (k : KeysPressed) (p : Player) : String :=
  if k.left ≠ 0 ∧ k.right ≠ 2 then kDuckL
  else if k.right ≠ 0 ∧ k.left ≠ 2 then kDuckR
  else p.image

/-- The physics section of `updatePlayerPosition`: vertical velocity and
move (kept only if `checkWallCollision(player.x, newY)` is free), then
horizontal velocity/facing and move (kept only if
`checkWallCollision(newX, player.y)` is free, with `player.y` already
updated), then `updateCamera`.  Each collision check runs on the state as
mutated so far, exactly as in the source; the inputs `p.y`, `p.x`,
`p.xVel`, `p.facing` are read from the original player because the source
has not yet mutated those fields at the corresponding program points. -/
def physicsStep (st : GameState) : GameState :=
  let k := st.keysPressed
  let p := st.player
  let yVel := nextYVel k p
  let newY := p.y + yVel
  let p1 := { p with yVel := yVel }
  let y1 := if checkWallCollision { st with player := p1 } p.x newY then p.y else newY
  let xVel := nextXVel k p
  let p2 := { p1 with y := y1, xVel := xVel, facing := nextFacing k p, image := nextImage k p }
  let newX := p.x + xVel
  let x1 := if checkWallCollision { st with player := p2 } newX y1 then p.x else newX
  updateCamera { st with player := { p2 with x := x1 } }

/-- The source's `updatePlayerPosition()`: early return when no map is
loaded; `checkInteractables()`; the interaction branch when space is pressed
over an interactable; otherwise the physics section.  The second component
of the result is the `setTimeout` callback scheduled by `moveRebound`, if
any; the result is `none` when the frame throws. -/
def updatePlayerPosition (st : GameState) : Option (GameState × Option PendingRebound) :=
  match getMap st.game st.player.location with
  | none => some (st, none)
  | some _ =>
    let st1 := checkInteractables st
    if st1.keysPressed.space ≠ 0 then
      match (getMap st1.game st1.player.location).bind GameMap.currentInteractable with
      | some obj => interactionStep st1 obj
      | none => some (physicsStep st1, none)
    else some (physicsStep st1, none)

/-- State of the audio engine relevant to sound-effect cooldowns: the
`soundCooldowns` map from (identifiers of) audio buffers to the context
time, in seconds, at which the buffer was last played. -/
structure AudioEngineState where
  soundCooldowns : List (Nat × ℚ)
deriving DecidableEq, Repr

/-- JS `Map.set`: binds `key` to `v`, replacing any previous binding
(modelled so that subsequent `Map.get` lookups see the new value). -/
def cooldownsSet (l : List (Nat × ℚ)) (key : Nat) (v : ℚ) : List (Nat × ℚ) :=
  (key, v) :: l.filter fun kv => decide (kv.1 ≠ key)

/-- The source's `playSound(audioBuffer, {loop, timeout})` reduced to its
cooldown/state behaviour.  `now` is `audioContext.currentTime` (seconds) at
the call, `timeout` the cooldown in milliseconds.  The returned flag is
true when a controller object is returned and playback starts, false when
the call returns `null` having started nothing.  The `if (lastPlayedTime)`
of the source is a JS truthiness test, false for a recorded time of 0. -/
def playSound (e : AudioEngineState) (now : ℚ) (buffer : Nat) (loop : Bool)
    (timeout : ℚ) : AudioEngineState × Bool :=
  let lastPlayedTime := e.soundCooldowns.lookup buffer
  let onCooldown :=
    if timeout > 0 then
      match lastPlayedTime with
      | some t => if t ≠ 0 then decide (now - t < timeout / 1000) else false
      | none => false
    else false
  if onCooldown then (e, false)
  else
    let e1 :=
      if timeout > 0 then { e with soundCooldowns := cooldownsSet e.soundCooldowns buffer now }
      else e
    (e1, true)

-- Structural lemmas about the embedding.

theorem lookup_map_val (f : String → GameMap → GameMap) (l : List (String × GameMap))
    (a : String) :
    (l.map (fun kv => (kv.1, f kv.1 kv.2))).lookup a = (l.lookup a).map (f a) := by
  induction l with
  | nil => rfl
  | cons kv tl ih =>
    obtain ⟨k, m⟩ := kv
    by_cases h : a = k
    · subst h
      simp [List.lookup_cons, ih]
    · simp [List.lookup_cons, beq_false_of_ne h, ih]

theorem getMap_setCurrentInteractable (g : Game) (loc : String) (v : Option TiledObject)
    (loc' : String) :
    getMap (setCurrentInteractable g loc v) loc'
      = (getMap g loc').map
          (fun m => if loc' = loc then { m with currentInteractable := v } else m) := by
  simpa [getMap, setCurrentInteractable] using
    lookup_map_val (fun key mp => if key = loc then { mp with currentInteractable := v } else mp)
      g.maps loc'

theorem checkInteractables_player (st : GameState) : (checkInteractables st).player = st.player := by
  cases h : getMap st.game st.player.location with
  | none => simp [checkInteractables, h]
  | some m =>
    cases h2 : m.interactablesLayer with
    | none => simp [checkInteractables, h, h2]
    | some objs => simp [checkInteractables, h, h2]

theorem checkInteractables_keysPressed (st : GameState) :
    (checkInteractables st).keysPressed = st.keysPressed := by
  cases h : getMap st.game st.player.location with
  | none => simp [checkInteractables, h]
  | some m =>
    cases h2 : m.interactablesLayer with
    | none => simp [checkInteractables, h, h2]
    | some objs => simp [checkInteractables, h, h2]

theorem activeCollisionLayer_checkInteractables (st : GameState) :
    activeCollisionLayer (checkInteractables st) = activeCollisionLayer st := by
  cases h : getMap st.game st.player.location with
  | none => simp [checkInteractables, h]
  | some m =>
    cases h2 : m.interactablesLayer with
    | none =>
      simp [checkInteractables, h, h2, activeCollisionLayer, checkInteractables_player,
        getMap_setCurrentInteractable]
    | some objs =>
      simp [checkInteractables, h, h2, activeCollisionLayer, checkInteractables_player,
        getMap_setCurrentInteractable]

theorem checkWallCollision_checkInteractables (st : GameState) (a b : ℚ) :
    checkWallCollision (checkInteractables st) a b = checkWallCollision st a b := by
  unfold checkWallCollision
  rw [activeCollisionLayer_checkInteractables, checkInteractables_player]

theorem updateCamera_player (st : GameState) : (updateCamera st).player = st.player := by
  cases h : getMap st.game st.player.location with
  | none => simp [updateCamera, h]
  | some m =>
    simp only [updateCamera, h]
    split <;> rfl

theorem updateCamera_keysPressed (st : GameState) :
    (updateCamera st).keysPressed = st.keysPressed := by
  cases h : getMap st.game st.player.location with
  | none => simp [updateCamera, h]
  | some m =>
    simp only [updateCamera, h]
    split <;> rfl

/-- Unfolding of one pixel's verdict of `checkWallCollision`. -/
theorem pixelBlocked_iff (p : Player) (layer : CollisionLayer) (px py : ℚ) (x y : Nat) :
    pixelBlocked p layer px py x y = true ↔
      p.collisionMap.data ((y * p.width + x) * 4 + 3) ≠ 0 ∧
      ((jsRound (px + x) < 0 ∨ (layer.width : ℤ) ≤ jsRound (px + x) ∨
        jsRound (py + y) < 0 ∨ (layer.height : ℤ) ≤ jsRound (py + y)) ∨
       layer.data ((jsRound (py + y)).toNat * layer.width + (jsRound (px + x)).toNat) ≠ 0) := by
  simp only [pixelBlocked]
  split_ifs with h1 h2
  · simp [h1]
  · simp only [decide_eq_true_eq]
    constructor
    · intro _
      exact ⟨h1, Or.inl h2⟩
    · intro _
      trivial
  · simp only [decide_eq_true_eq]
    constructor
    · intro hd
      exact ⟨h1, Or.inr hd⟩
    · rintro ⟨-, hor | hd⟩
      · exact absurd hor h2
      · exact hd

-- Concrete fixtures used by witnesses and counterexamples.

def nmHouse1 : String := "house1"
def nmOutdoors1 : String := "outdoors1"

/-- A 1x1 fully opaque player mask. -/
def opaqueMask : ImageData := ImageData.mk (fun _ => 255)

/-- An 8x1 collision bitmap whose only solid cell is x = 5. -/
def c1Layer : CollisionLayer :=
  { width := 8, height := 1, data := fun i => if i = 5 then 1 else 0 }

def c1Player : Player :=
  { x := 0, y := 0, xVel := 0, yVel := 0, acc := 1, terminalVel := 1,
    facing := kLeft, location := nmHouse1, width := 1, height := 1,
    image := kDuckL, collisionMap := opaqueMask }

def c1Map : GameMap :=
  { mapData := ⟨8, 1, 1, 1⟩, currentInteractable := none,
    collisionLayer := some c1Layer, interactablesLayer := none }

def c1Game : Game := Game.mk [(nmHouse1, c1Map)]

def c1St : GameState :=
  { player := c1Player, keysPressed := ⟨0, 0, 0, 0, 0⟩,
    camera := ⟨0, 0, 10, 10⟩, game := c1Game }

-- Claim theorems.

/-- C1: for every proposed position, `checkWallCollision` returns true if
and only if some mask pixel with alpha not 0, placed at the proposed
position with coordinates rounded by `Math.round`, lies outside the bounds
of the active map's collision bitmap or lands on a non-zero cell of that
bitmap; otherwise it returns false. -/
theorem checkWallCollision_iff (st : GameState) (layer : CollisionLayer)
    (hl : activeCollisionLayer st = some layer) (px py : ℚ) :
    checkWallCollision st px py = true ↔
      ∃ x < st.player.width, ∃ y < st.player.height,
        st.player.collisionMap.data ((y * st.player.width + x) * 4 + 3) ≠ 0 ∧
        ((jsRound (px + x) < 0 ∨ (layer.width : ℤ) ≤ jsRound (px + x) ∨
          jsRound (py + y) < 0 ∨ (layer.height : ℤ) ≤ jsRound (py + y)) ∨
         layer.data ((jsRound (py + y)).toNat * layer.width + (jsRound (px + x)).toNat) ≠ 0) := by
  unfold checkWallCollision
  rw [hl]
  simp only [List.any_eq_true, List.mem_range]
  constructor
  · rintro ⟨y, hy, x, hx, hpb⟩
    exact ⟨x, hx, y, hy, (pixelBlocked_iff st.player layer px py x y).mp hpb⟩
  · rintro ⟨x, hx, y, hy, hcond⟩
    exact ⟨y, hy, x, hx, (pixelBlocked_iff st.player layer px py x y).mpr hcond⟩

/-- Witness for C1: at position (5, 0) on the fixture map, the single
opaque mask pixel lands on the solid cell, so the move is rejected. -/
theorem checkWallCollision_iff_witness : checkWallCollision c1St 5 0 = true := by
  apply (checkWallCollision_iff c1St c1Layer rfl 5 0).mpr
  refine ⟨0, by decide, 0, by decide, by decide, Or.inr ?_⟩
  have hx : jsRound ((5:ℚ) + ((0:ℕ) : ℚ)) = 5 := jsRound_eq _ 5 (by norm_num) (by norm_num)
  have hy : jsRound ((0:ℚ) + ((0:ℕ) : ℚ)) = 0 := jsRound_eq _ 0 (by norm_num) (by norm_num)
  rw [hx, hy]
  decide

/-- C9: when the player's location names no loaded map, or the current map
has no Collision layer, `checkWallCollision` accepts every move (returns
false), for any coordinates including negative ones. -/
theorem checkWallCollision_missing_map_false (st : GameState) (px py : ℚ)
    (h : getMap st.game st.player.location = none ∨
         ∃ m, getMap st.game st.player.location = some m ∧ m.collisionLayer = none) :
    checkWallCollision st px py = false := by
  have hl : activeCollisionLayer st = none := by
    unfold activeCollisionLayer
    rcases h with h0 | ⟨m, hm, hcl⟩
    · rw [h0]
      rfl
    · rw [hm]
      exact hcl
  unfold checkWallCollision
  rw [hl]

/-- A state whose player location names no loaded map. -/
def c9St : GameState :=
  { player := { c1Player with location := nmOutdoors1 }, keysPressed := ⟨0, 0, 0, 0, 0⟩,
    camera := ⟨0, 0, 10, 10⟩, game := c1Game }

/-- Witness for C9: with an unknown location, even a far out-of-bounds
negative position is accepted. -/
theorem checkWallCollision_missing_map_false_witness :
    checkWallCollision c9St (-5) (-7) = false := by
  apply checkWallCollision_missing_map_false c9St (-5) (-7)
  left
  rfl

/-- C6: two collision bitmaps of equal dimensions that agree on every cell
reached by an opaque (alpha not 0) mask pixel at the proposed position give
the same verdict there: cells covered only by fully transparent mask pixels
never contribute to the collision result. -/
theorem checkWallCollision_transparent_irrelevant
    (stA stB : GameState) (LA LB : CollisionLayer) (px py : ℚ)
    (hA : activeCollisionLayer stA = some LA) (hB : activeCollisionLayer stB = some LB)
    (hp : stA.player = stB.player)
    (hw : LA.width = LB.width) (hh : LA.height = LB.height)
    (hagree : ∀ x < stA.player.width, ∀ y < stA.player.height,
      stA.player.collisionMap.data ((y * stA.player.width + x) * 4 + 3) ≠ 0 →
      0 ≤ jsRound (px + x) → jsRound (px + x) < (LA.width : ℤ) →
      0 ≤ jsRound (py + y) → jsRound (py + y) < (LA.height : ℤ) →
      LA.data ((jsRound (py + y)).toNat * LA.width + (jsRound (px + x)).toNat)
        = LB.data ((jsRound (py + y)).toNat * LB.width + (jsRound (px + x)).toNat)) :
    checkWallCollision stA px py = checkWallCollision stB px py := by
  unfold checkWallCollision
  rw [hA, hB, ← hp]
  have key : ∀ (f g : Bool), (f = true ↔ g = true) → f = g := by decide
  apply key
  simp only [List.any_eq_true, List.mem_range]
  constructor
  · rintro ⟨y, hy, x, hx, hpb⟩
    obtain ⟨ha, hor⟩ := (pixelBlocked_iff stA.player LA px py x y).mp hpb
    refine ⟨y, hy, x, hx, (pixelBlocked_iff stA.player LB px py x y).mpr ⟨ha, ?_⟩⟩
    by_cases hoob : jsRound (px + x) < 0 ∨ (LA.width : ℤ) ≤ jsRound (px + x) ∨
        jsRound (py + y) < 0 ∨ (LA.height : ℤ) ≤ jsRound (py + y)
    · left
      rw [hw, hh] at hoob
      exact hoob
    · rcases hor with hoob' | hdata
      · exact absurd hoob' hoob
      · push_neg at hoob
        obtain ⟨h1, h2, h3, h4⟩ := hoob
        right
        rw [← hagree x hx y hy ha h1 h2 h3 h4]
        exact hdata
  · rintro ⟨y, hy, x, hx, hpb⟩
    obtain ⟨ha, hor⟩ := (pixelBlocked_iff stA.player LB px py x y).mp hpb
    refine ⟨y, hy, x, hx, (pixelBlocked_iff stA.player LA px py x y).mpr ⟨ha, ?_⟩⟩
    by_cases hoob : jsRound (px + x) < 0 ∨ (LB.width : ℤ) ≤ jsRound (px + x) ∨
        jsRound (py + y) < 0 ∨ (LB.height : ℤ) ≤ jsRound (py + y)
    · left
      rw [← hw, ← hh] at hoob
      exact hoob
    · rcases hor with hoob' | hdata
      · exact absurd hoob' hoob
      · push_neg at hoob
        obtain ⟨h1, h2, h3, h4⟩ := hoob
        right
        rw [hagree x hx y hy ha h1 (by rw [hw]; exact h2) h3 (by rw [hh]; exact h4)]
        exact hdata

/-- A 1x2 mask whose top pixel is opaque and bottom pixel transparent. -/
def halfMask : ImageData := ImageData.mk (fun i => if i = 3 then 255 else 0)

def c6Player : Player := { c1Player with width := 1, height := 2, collisionMap := halfMask }

/-- A 1x2 bitmap that is entirely empty. -/
def c6LA : CollisionLayer := { width := 1, height := 2, data := fun _ => 0 }

/-- A 1x2 bitmap solid only in the cell under the transparent mask pixel. -/
def c6LB : CollisionLayer := { width := 1, height := 2, data := fun i => if i = 1 then 7 else 0 }

def c6MapA : GameMap :=
  { mapData := ⟨1, 2, 1, 1⟩, currentInteractable := none,
    collisionLayer := some c6LA, interactablesLayer := none }

def c6MapB : GameMap :=
  { mapData := ⟨1, 2, 1, 1⟩, currentInteractable := none,
    collisionLayer := some c6LB, interactablesLayer := none }

def c6StA : GameState :=
  { player := c6Player, keysPressed := ⟨0, 0, 0, 0, 0⟩,
    camera := ⟨0, 0, 10, 10⟩, game := Game.mk [(nmHouse1, c6MapA)] }

def c6StB : GameState :=
  { player := c6Player, keysPressed := ⟨0, 0, 0, 0, 0⟩,
    camera := ⟨0, 0, 10, 10⟩, game := Game.mk [(nmHouse1, c6MapB)] }

/-- Witness for C6: the two fixture bitmaps differ only in the cell under
the transparent pixel, and the verdict at (0, 0) is the same. -/
theorem checkWallCollision_transparent_irrelevant_witness :
    checkWallCollision c6StA 0 0 = checkWallCollision c6StB 0 0 := by
  apply checkWallCollision_transparent_irrelevant c6StA c6StB c6LA c6LB 0 0 rfl rfl rfl rfl rfl
  intro x hx y hy ha h1 h2 h3 h4
  obtain rfl : x = 0 := Nat.lt_one_iff.mp hx
  have hy' : y < 2 := hy
  rcases y with _ | _ | y
  · have h0 : jsRound ((0:ℚ) + ((0:ℕ) : ℚ)) = 0 := jsRound_eq _ 0 (by norm_num) (by norm_num)
    rw [h0]
    rfl
  · exact absurd rfl ha
  · exact absurd hy' (by omega)

/-- A map that is narrower (8 px) but taller (20 px) than the 10x10
viewport, with no collision or interactables layers. -/
def c2Map : GameMap :=
  { mapData := ⟨8, 20, 1, 1⟩, currentInteractable := none,
    collisionLayer := none, interactablesLayer := none }

/-- A state on that map with the camera away from the origin. -/
def c2St : GameState :=
  { player := c1Player, keysPressed := ⟨0, 0, 0, 0, 0⟩,
    camera := ⟨5, 5, 10, 10⟩, game := Game.mk [(nmHouse1, c2Map)] }

/-- Counterexample to C2 as stated: the fixture map is smaller than the
viewport in the x axis (8 < 10), yet `updateCamera` is not a no-op and does
not leave the camera at the origin state it was claimed to be frozen at:
the camera x is rewritten from 5 to 0 because the clamp still runs (the
source skips the clamp only when the map fits the viewport in BOTH axes). -/
theorem updateCamera_small_axis_cex :
    ((c2Map.mapData.width : ℚ) * (c2Map.mapData.tilewidth : ℚ) < c2St.camera.width) ∧
    c2St.camera.x = 5 ∧ (updateCamera c2St).camera.x = 0 := by
  refine ⟨by norm_num [c2Map, c2St], rfl, ?_⟩
  have hget : getMap c2St.game c2St.player.location = some c2Map := rfl
  simp only [updateCamera, hget]
  rw [if_neg (by norm_num [c2Map, c2St])]
  simp only [c2Map, c2St, c1Player]
  norm_num [min_def, max_def]

/-- C2 (amended): after `updateCamera` on a loaded map, whenever the map
exceeds the viewport in at least one axis the clamp runs on both axes and
leaves the camera inside [0, max 0 (mapSize − viewportSize)] on each axis;
the call is a no-op exactly when the map fits the viewport in both axes, in
which case the camera keeps its previous value (not necessarily the
origin). -/
theorem updateCamera_clamped (st : GameState) (m : GameMap)
    (hm : getMap st.game st.player.location = some m) :
    (¬((m.mapData.width : ℚ) * (m.mapData.tilewidth : ℚ) ≤ st.camera.width ∧
        (m.mapData.height : ℚ) * (m.mapData.tileheight : ℚ) ≤ st.camera.height) →
      (0 ≤ (updateCamera st).camera.x ∧
        (updateCamera st).camera.x ≤
          max 0 ((m.mapData.width : ℚ) * (m.mapData.tilewidth : ℚ) - st.camera.width)) ∧
      (0 ≤ (updateCamera st).camera.y ∧
        (updateCamera st).camera.y ≤
          max 0 ((m.mapData.height : ℚ) * (m.mapData.tileheight : ℚ) - st.camera.height))) ∧
    (((m.mapData.width : ℚ) * (m.mapData.tilewidth : ℚ) ≤ st.camera.width ∧
        (m.mapData.height : ℚ) * (m.mapData.tileheight : ℚ) ≤ st.camera.height) →
      updateCamera st = st) := by
  constructor
  · intro hbig
    simp only [updateCamera, hm]
    rw [if_neg hbig]
    refine ⟨⟨le_max_left 0 _, ?_⟩, ⟨le_max_left 0 _, ?_⟩⟩
    · exact max_le_max (le_refl 0) (min_le_right _ _)
    · exact max_le_max (le_refl 0) (min_le_right _ _)
  · intro hfit
    simp only [updateCamera, hm]
    rw [if_pos hfit]

/-- Witness for the amended C2 at the fixture state: the map is taller than
the viewport, so the clamp runs and the camera x lands inside
[0, max 0 (8 − 10)]. -/
theorem updateCamera_clamped_witness :
    0 ≤ (updateCamera c2St).camera.x ∧
    (updateCamera c2St).camera.x ≤
      max 0 ((c2Map.mapData.width : ℚ) * (c2Map.mapData.tilewidth : ℚ) - c2St.camera.width) := by
  exact ((updateCamera_clamped c2St c2Map rfl).1 (by norm_num [c2Map, c2St])).1

/-- When space is pressed and the post-`checkInteractables` cached
interactable exists, `updatePlayerPosition` is the interaction branch. -/
theorem updatePlayerPosition_interaction (st : GameState) (m : GameMap) (obj : TiledObject)
    (hm : getMap st.game st.player.location = some m)
    (hSpace : st.keysPressed.space ≠ 0)
    (hCur : (getMap (checkInteractables st).game
        (checkInteractables st).player.location).bind GameMap.currentInteractable = some obj) :
    updatePlayerPosition st = interactionStep (checkInteractables st) obj := by
  simp only [updatePlayerPosition, hm]
  rw [checkInteractables_keysPressed]
  rw [if_pos hSpace]
  rw [hCur]

/-- When space is up, or no interactable is cached, `updatePlayerPosition`
is the physics section on the state left by `checkInteractables`. -/
theorem updatePlayerPosition_physics (st : GameState) (m : GameMap)
    (hm : getMap st.game st.player.location = some m)
    (hNoInt : st.keysPressed.space = 0 ∨
      (getMap (checkInteractables st).game
        (checkInteractables st).player.location).bind GameMap.currentInteractable = none) :
    updatePlayerPosition st = some (physicsStep (checkInteractables st), none) := by
  simp only [updatePlayerPosition, hm]
  rw [checkInteractables_keysPressed]
  rcases hNoInt with h0 | hnone
  · rw [if_neg (by simp [h0])]
  · by_cases hsp : st.keysPressed.space ≠ 0
    · rw [if_pos hsp, hnone]
    · rw [if_neg hsp]

/-- A failed validation returns right away with only space consumed. -/
theorem interactionStep_verify_false (s : GameState) (obj : TiledObject)
    (props : List (String × JSValue))
    (hProps : obj.properties = some props)
    (hVf : verifyInteractable s.game props = false) :
    interactionStep s obj =
      some ({ s with keysPressed := { s.keysPressed with space := 0 } }, none) := by
  simp only [interactionStep, hProps]
  rw [if_pos hVf]

/-- After `checkInteractables`, the cached current interactable of the
active map is exactly the overlap-scan result. -/
theorem currentInteractable_after_check (st : GameState) (m : GameMap)
    (objs : List TiledObject)
    (hm : getMap st.game st.player.location = some m)
    (hil : m.interactablesLayer = some objs) :
    (getMap (checkInteractables st).game
        (checkInteractables st).player.location).bind GameMap.currentInteractable
      = findInteractable st.player objs := by
  simp only [checkInteractables, hm, hil]
  rw [getMap_setCurrentInteractable]
  rw [hm]
  simp

/-- `checkWallCollision` reads only the location, mask and dimensions of
the player, so updates to its other fields do not change the verdict. -/
theorem checkWallCollision_player_update (s : GameState) (p' : Player) (a b : ℚ)
    (hl : p'.location = s.player.location) (hw : p'.width = s.player.width)
    (hh : p'.height = s.player.height) (hcm : p'.collisionMap = s.player.collisionMap) :
    checkWallCollision { s with player := p' } a b = checkWallCollision s a b := by
  simp only [checkWallCollision, activeCollisionLayer, pixelBlocked, hl, hw, hh, hcm]

/-- C3: with space pressed over a door interactable whose validation fails
(here: any state where `verifyInteractable` rejects the property bag, in
particular a missing `destinationMap`), the frame returns after consuming
space, leaving the player's x, y and location untouched. -/
theorem door_validation_failure_preserves_player (st : GameState) (m : GameMap)
    (obj : TiledObject) (props : List (String × JSValue))
    (hm : getMap st.game st.player.location = some m)
    (hSpace : st.keysPressed.space ≠ 0)
    (hCur : (getMap (checkInteractables st).game
        (checkInteractables st).player.location).bind GameMap.currentInteractable = some obj)
    (hProps : obj.properties = some props)
    (hType : propValue props kType = some (JSValue.str kDoor))
    (hVf : verifyInteractable (checkInteractables st).game props = false) :
    ∃ st', updatePlayerPosition st = some (st', none) ∧
      st'.player.x = st.player.x ∧ st'.player.y = st.player.y ∧
      st'.player.location = st.player.location := by
  rw [updatePlayerPosition_interaction st m obj hm hSpace hCur,
    interactionStep_verify_false (checkInteractables st) obj props hProps hVf]
  refine ⟨_, rfl, ?_, ?_, ?_⟩ <;> simp [checkInteractables_player]

/-- A door interactable overlapping the fixture player, with no
`destinationMap` property. -/
def c3Door : TiledObject :=
  { x := 0, y := 0, width := 5, height := 5,
    properties := some [(kType, JSValue.str kDoor)] }

def c3MapI : GameMap :=
  { mapData := ⟨8, 8, 1, 1⟩, currentInteractable := none,
    collisionLayer := none, interactablesLayer := some [c3Door] }

def c3St : GameState :=
  { player := c1Player, keysPressed := ⟨0, 0, 0, 0, 1⟩,
    camera := ⟨0, 0, 10, 10⟩, game := Game.mk [(nmHouse1, c3MapI)] }

/-- The overlap scan on the C3 fixture finds the door. -/
theorem c3_find : findInteractable c3St.player [c3Door] = some c3Door := by
  have hcond : (decide (c3St.player.x < c3Door.x + c3Door.width) &&
      decide (c3St.player.x + (c3St.player.width : ℚ) > c3Door.x) &&
      decide (c3St.player.y < c3Door.y + c3Door.height) &&
      decide (c3St.player.y + (c3St.player.height : ℚ) > c3Door.y)) = true := by
    simp only [Bool.and_eq_true, decide_eq_true_eq]
    refine ⟨⟨⟨?_, ?_⟩, ?_⟩, ?_⟩ <;> norm_num [c3St, c1Player, c3Door]
  simp only [findInteractable, List.find?, hcond]

/-- Witness for C3: pressing space on the fixture door without a
`destinationMap` leaves x, y and location unchanged. -/
theorem door_validation_failure_witness :
    ∃ st', updatePlayerPosition c3St = some (st', none) ∧
      st'.player.x = c3St.player.x ∧ st'.player.y = c3St.player.y ∧
      st'.player.location = c3St.player.location := by
  have hCur : (getMap (checkInteractables c3St).game
      (checkInteractables c3St).player.location).bind GameMap.currentInteractable
        = some c3Door := by
    rw [currentInteractable_after_check c3St c3MapI [c3Door] rfl rfl]
    exact c3_find
  exact door_validation_failure_preserves_player c3St c3MapI c3Door
    [(kType, JSValue.str kDoor)] rfl (by decide) hCur rfl rfl rfl

/-- Overlap scan against a single interactable. -/
theorem findInteractable_singleton (p : Player) (obj : TiledObject)
    (h1 : p.x < obj.x + obj.width) (h2 : p.x + (p.width : ℚ) > obj.x)
    (h3 : p.y < obj.y + obj.height) (h4 : p.y + (p.height : ℚ) > obj.y) :
    findInteractable p [obj] = some obj := by
  have hcond : (decide (p.x < obj.x + obj.width) &&
      decide (p.x + (p.width : ℚ) > obj.x) &&
      decide (p.y < obj.y + obj.height) &&
      decide (p.y + (p.height : ℚ) > obj.y)) = true := by
    simp only [Bool.and_eq_true, decide_eq_true_eq]
    exact ⟨⟨⟨h1, h2⟩, h3⟩, h4⟩
  simp only [findInteractable, List.find?, hcond]

/-- C4: with space pressed over a valid door (validation passes, the bag
holding a destination map string and numeric coordinates), the frame sets
location/x/y to the destinations, zeroes both velocities, schedules no
timer, and runs no physics (the position is exactly the destination). -/
theorem door_valid_teleports (st : GameState) (m : GameMap) (obj : TiledObject)
    (props : List (String × JSValue)) (dm : String) (dx dy : ℚ)
    (hm : getMap st.game st.player.location = some m)
    (hSpace : st.keysPressed.space ≠ 0)
    (hCur : (getMap (checkInteractables st).game
        (checkInteractables st).player.location).bind GameMap.currentInteractable = some obj)
    (hProps : obj.properties = some props)
    (hType : propValue props kType = some (JSValue.str kDoor))
    (hDM : propValue props kDestinationMap = some (JSValue.str dm))
    (hDX : propValue props kDestinationX = some (JSValue.num dx))
    (hDY : propValue props kDestinationY = some (JSValue.num dy))
    (hVf : verifyInteractable (checkInteractables st).game props = true) :
    ∃ st', updatePlayerPosition st = some (st', none) ∧
      st'.player.location = dm ∧ st'.player.x = dx ∧ st'.player.y = dy ∧
      st'.player.xVel = 0 ∧ st'.player.yVel = 0 := by
  rw [updatePlayerPosition_interaction st m obj hm hSpace hCur]
  simp only [interactionStep, hProps]
  rw [if_neg (by simp [hVf])]
  rw [if_pos hType]
  refine ⟨_, rfl, ?_, ?_, ?_, ?_, ?_⟩ <;>
    simp [updateCamera_player, hDM, hDX, hDY, asStr, asNum]

/-- A valid door from the fixture house to the outdoors map. -/
def c4Props : List (String × JSValue) :=
  [(kType, JSValue.str kDoor), (kDestinationMap, JSValue.str nmOutdoors1),
   (kDestinationX, JSValue.num 3), (kDestinationY, JSValue.num 4)]

def c4Door : TiledObject :=
  { x := 0, y := 0, width := 5, height := 5, properties := some c4Props }

def c4MapI : GameMap :=
  { mapData := ⟨8, 8, 1, 1⟩, currentInteractable := none,
    collisionLayer := none, interactablesLayer := some [c4Door] }

def outdoorsMap : GameMap :=
  { mapData := ⟨30, 30, 1, 1⟩, currentInteractable := none,
    collisionLayer := none, interactablesLayer := none }

def c4St : GameState :=
  { player := c1Player, keysPressed := ⟨0, 0, 0, 0, 1⟩,
    camera := ⟨0, 0, 10, 10⟩,
    game := Game.mk [(nmHouse1, c4MapI), (nmOutdoors1, outdoorsMap)] }

/-- Witness for C4: activating the fixture door teleports the player to
(3, 4) on the outdoors map with zero velocity. -/
theorem door_valid_teleports_witness :
    ∃ st', updatePlayerPosition c4St = some (st', none) ∧
      st'.player.location = nmOutdoors1 ∧ st'.player.x = 3 ∧ st'.player.y = 4 ∧
      st'.player.xVel = 0 ∧ st'.player.yVel = 0 := by
  have hCur : (getMap (checkInteractables c4St).game
      (checkInteractables c4St).player.location).bind GameMap.currentInteractable
        = some c4Door := by
    rw [currentInteractable_after_check c4St c4MapI [c4Door] rfl rfl]
    exact findInteractable_singleton _ _ (by norm_num [c4St, c1Player, c4Door])
      (by norm_num [c4St, c1Player, c4Door]) (by norm_num [c4St, c1Player, c4Door])
      (by norm_num [c4St, c1Player, c4Door])
  exact door_valid_teleports c4St c4MapI c4Door c4Props nmOutdoors1 3 4
    rfl (by decide) hCur rfl rfl rfl rfl rfl rfl

/-- C7: with space pressed over a valid `moveRebound` interactable, the
player is teleported to the destination and a timer of exactly
`reboundTime` ms is scheduled whose callback, applied to ANY later player
state, restores exactly the pre-transition coordinates and zeroes both
velocities. -/
theorem moveRebound_schedules_revert (st : GameState) (m : GameMap) (obj : TiledObject)
    (props : List (String × JSValue)) (dx dy rt : ℚ)
    (hm : getMap st.game st.player.location = some m)
    (hSpace : st.keysPressed.space ≠ 0)
    (hCur : (getMap (checkInteractables st).game
        (checkInteractables st).player.location).bind GameMap.currentInteractable = some obj)
    (hProps : obj.properties = some props)
    (hType : propValue props kType = some (JSValue.str kMoveRebound))
    (hDX : propValue props kDestinationX = some (JSValue.num dx))
    (hDY : propValue props kDestinationY = some (JSValue.num dy))
    (hRT : propValue props kReboundTime = some (JSValue.num rt))
    (hVf : verifyInteractable (checkInteractables st).game props = true) :
    ∃ st' timer, updatePlayerPosition st = some (st', some timer) ∧
      st'.player.x = dx ∧ st'.player.y = dy ∧ timer.delay = rt ∧
      ∀ p : Player, (timer.run p).x = st.player.x ∧ (timer.run p).y = st.player.y ∧
        (timer.run p).xVel = 0 ∧ (timer.run p).yVel = 0 := by
  rw [updatePlayerPosition_interaction st m obj hm hSpace hCur]
  simp only [interactionStep, hProps]
  rw [if_neg (by simp [hVf])]
  rw [if_neg (by simp [hType, kDoor, kMoveRebound])]
  rw [if_neg (by simp [hType, kMove, kMoveRebound])]
  rw [if_pos hType]
  refine ⟨_, _, rfl, ?_, ?_, ?_, ?_⟩
  · simp [updateCamera_player, hDX, asNum]
  · simp [updateCamera_player, hDY, asNum]
  · simp [hRT, asNum]
  · intro p
    refine ⟨?_, ?_, rfl, rfl⟩ <;> simp [checkInteractables_player]

/-- A valid rebound pad: teleports to (6, 7) and returns after 500 ms. -/
def c7Props : List (String × JSValue) :=
  [(kType, JSValue.str kMoveRebound), (kDestinationX, JSValue.num 6),
   (kDestinationY, JSValue.num 7), (kReboundTime, JSValue.num 500)]

def c7Obj : TiledObject :=
  { x := 0, y := 0, width := 5, height := 5, properties := some c7Props }

def c7MapI : GameMap :=
  { mapData := ⟨8, 8, 1, 1⟩, currentInteractable := none,
    collisionLayer := none, interactablesLayer := some [c7Obj] }

def c7St : GameState :=
  { player := c1Player, keysPressed := ⟨0, 0, 0, 0, 1⟩,
    camera := ⟨0, 0, 10, 10⟩, game := Game.mk [(nmHouse1, c7MapI)] }

/-- Witness for C7: the fixture rebound pad teleports to (6, 7), schedules
a 500 ms timer, and the callback restores (0, 0) with zero velocity no
matter what player state it is applied to. -/
theorem moveRebound_schedules_revert_witness :
    ∃ st' timer, updatePlayerPosition c7St = some (st', some timer) ∧
      st'.player.x = 6 ∧ st'.player.y = 7 ∧ timer.delay = 500 ∧
      ∀ p : Player, (timer.run p).x = c7St.player.x ∧ (timer.run p).y = c7St.player.y ∧
        (timer.run p).xVel = 0 ∧ (timer.run p).yVel = 0 := by
  have hCur : (getMap (checkInteractables c7St).game
      (checkInteractables c7St).player.location).bind GameMap.currentInteractable
        = some c7Obj := by
    rw [currentInteractable_after_check c7St c7MapI [c7Obj] rfl rfl]
    exact findInteractable_singleton _ _ (by norm_num [c7St, c1Player, c7Obj])
      (by norm_num [c7St, c1Player, c7Obj]) (by norm_num [c7St, c1Player, c7Obj])
      (by norm_num [c7St, c1Player, c7Obj])
  exact moveRebound_schedules_revert c7St c7MapI c7Obj c7Props 6 7 500
    rfl (by decide) hCur rfl rfl rfl rfl rfl rfl

/-- The player after the physics section, as explicit dataflow. -/
theorem physicsStep_player (s : GameState) :
    (physicsStep s).player =
      (let k := s.keysPressed
       let p := s.player
       let yVel := nextYVel k p
       let newY := p.y + yVel
       let p1 : Player := { p with yVel := yVel }
       let y1 := if checkWallCollision { s with player := p1 } p.x newY then p.y else newY
       let xVel := nextXVel k p
       let p2 : Player :=
         { p1 with y := y1, xVel := xVel, facing := nextFacing k p, image := nextImage k p }
       let newX := p.x + xVel
       let x1 := if checkWallCollision { s with player := p2 } newX y1 then p.x else newX
       { p2 with x := x1 }) := by
  simp only [physicsStep]
  rw [updateCamera_player]

/-- `checkWallCollision` depends only on the active collision layer and the
player's mask and dimensions. -/
theorem checkWallCollision_eq_of (sA sB : GameState) (a b : ℚ)
    (hal : activeCollisionLayer sA = activeCollisionLayer sB)
    (hw : sA.player.width = sB.player.width) (hh : sA.player.height = sB.player.height)
    (hcm : sA.player.collisionMap = sB.player.collisionMap) :
    checkWallCollision sA a b = checkWallCollision sB a b := by
  simp only [checkWallCollision, pixelBlocked, hal, hw, hh, hcm]

theorem checkInteractables_camera (st : GameState) :
    (checkInteractables st).camera = st.camera := by
  cases h : getMap st.game st.player.location with
  | none => simp [checkInteractables, h]
  | some m =>
    cases h2 : m.interactablesLayer with
    | none => simp [checkInteractables, h, h2]
    | some objs => simp [checkInteractables, h, h2]

/-- C5: off the interaction branch, the frame tests the vertical move at
(current x, proposed y) and the horizontal move at (proposed x,
current-frame y), and applies each axis only if its own test is free — so a
blocked axis never prevents the free axis from moving. -/
theorem updatePlayerPosition_axis_separated (st : GameState) (m : GameMap)
    (hm : getMap st.game st.player.location = some m)
    (hNoInt : st.keysPressed.space = 0 ∨
      (getMap (checkInteractables st).game
        (checkInteractables st).player.location).bind GameMap.currentInteractable = none) :
    ∃ st', updatePlayerPosition st = some (st', none) ∧
      st'.player.y = (if checkWallCollision st st.player.x
          (st.player.y + nextYVel st.keysPressed st.player) then st.player.y
        else st.player.y + nextYVel st.keysPressed st.player) ∧
      st'.player.x = (if checkWallCollision st
          (st.player.x + nextXVel st.keysPressed st.player) st'.player.y then st.player.x
        else st.player.x + nextXVel st.keysPressed st.player) := by
  rw [updatePlayerPosition_physics st m hm hNoInt]
  have hcwV : ∀ (v a b : ℚ), checkWallCollision
      ({ checkInteractables st with
          player := { st.player with yVel := v },
          keysPressed := st.keysPressed,
          camera := st.camera }) a b
      = checkWallCollision st a b := by
    intro v a b
    apply checkWallCollision_eq_of
    · calc activeCollisionLayer ({ checkInteractables st with
              player := { st.player with yVel := v },
              keysPressed := st.keysPressed,
              camera := st.camera })
          = activeCollisionLayer (checkInteractables st) := by
            unfold activeCollisionLayer
            dsimp only
            rw [checkInteractables_player]
        _ = activeCollisionLayer st := activeCollisionLayer_checkInteractables st
    · rfl
    · rfl
    · rfl
  have hcwH : ∀ (v y1 xv : ℚ) (fc im : String) (a b : ℚ), checkWallCollision
      ({ checkInteractables st with
          player := { st.player with yVel := v, y := y1, xVel := xv, facing := fc, image := im },
          keysPressed := st.keysPressed,
          camera := st.camera }) a b
      = checkWallCollision st a b := by
    intro v y1 xv fc im a b
    apply checkWallCollision_eq_of
    · calc activeCollisionLayer ({ checkInteractables st with
              player := { st.player with yVel := v, y := y1, xVel := xv, facing := fc, image := im },
              keysPressed := st.keysPressed,
              camera := st.camera })
          = activeCollisionLayer (checkInteractables st) := by
            unfold activeCollisionLayer
            dsimp only
            rw [checkInteractables_player]
        _ = activeCollisionLayer st := activeCollisionLayer_checkInteractables st
    · rfl
    · rfl
    · rfl
  refine ⟨_, rfl, ?_, ?_⟩
  · rw [physicsStep_player]
    simp only [checkInteractables_player, checkInteractables_keysPressed,
      checkInteractables_camera]
    rw [hcwV]
  · rw [physicsStep_player]
    simp only [checkInteractables_player, checkInteractables_keysPressed,
      checkInteractables_camera]
    rw [hcwV, hcwH]

/-- Witness for C5 at the fixture state (space up, map loaded): the frame
result satisfies the axis-separated characterization. -/
theorem updatePlayerPosition_axis_separated_witness :
    ∃ st', updatePlayerPosition c1St = some (st', none) ∧
      st'.player.y = (if checkWallCollision c1St c1St.player.x
          (c1St.player.y + nextYVel c1St.keysPressed c1St.player) then c1St.player.y
        else c1St.player.y + nextYVel c1St.keysPressed c1St.player) ∧
      st'.player.x = (if checkWallCollision c1St
          (c1St.player.x + nextXVel c1St.keysPressed c1St.player) st'.player.y
          then c1St.player.x
        else c1St.player.x + nextXVel c1St.keysPressed c1St.player) :=
  updatePlayerPosition_axis_separated c1St c1Map rfl (Or.inl rfl)

theorem abs_nextYVel_le (k : KeysPressed) (p : Player)
    (hacc : 0 ≤ p.acc) (hterm : 0 ≤ p.terminalVel) (h : |p.yVel| ≤ p.terminalVel) :
    |nextYVel k p| ≤ p.terminalVel := by
  rw [abs_le] at h ⊢
  obtain ⟨h1, h2⟩ := h
  unfold nextYVel
  split_ifs with c1 c2
  · exact ⟨le_max_right _ _, max_le (by linarith) (by linarith)⟩
  · exact ⟨le_min (by linarith) (by linarith), min_le_right _ _⟩
  · exact ⟨by linarith, hterm⟩

theorem abs_nextXVel_le (k : KeysPressed) (p : Player)
    (hacc : 0 ≤ p.acc) (hterm : 0 ≤ p.terminalVel) (h : |p.xVel| ≤ p.terminalVel) :
    |nextXVel k p| ≤ p.terminalVel := by
  rw [abs_le] at h ⊢
  obtain ⟨h1, h2⟩ := h
  unfold nextXVel
  split_ifs with c1 c2
  · exact ⟨le_max_right _ _, max_le (by linarith) (by linarith)⟩
  · exact ⟨le_min (by linarith) (by linarith), min_le_right _ _⟩
  · exact ⟨by linarith, hterm⟩

/-- The interaction branch either leaves both velocities unchanged or sets
both to zero; terminal velocity is never modified. -/
theorem interactionStep_player_vel (s : GameState) (obj : TiledObject)
    (out : GameState) (r : Option PendingRebound)
    (h : interactionStep s obj = some (out, r)) :
    (out.player.xVel = s.player.xVel ∧ out.player.yVel = s.player.yVel ∧
      out.player.terminalVel = s.player.terminalVel) ∨
    (out.player.xVel = 0 ∧ out.player.yVel = 0 ∧
      out.player.terminalVel = s.player.terminalVel) := by
  cases hp : obj.properties with
  | none =>
    simp only [interactionStep, hp] at h
    exact absurd h (by simp)
  | some props =>
    simp only [interactionStep, hp] at h
    split_ifs at h with h1 h2 h3 h4 <;>
      (simp only [Option.some.injEq, Prod.mk.injEq] at h
       obtain ⟨ho, -⟩ := h
       subst ho)
    · left
      exact ⟨rfl, rfl, rfl⟩
    · right
      refine ⟨?_, ?_, ?_⟩ <;> simp [updateCamera_player]
    · left
      refine ⟨?_, ?_, ?_⟩ <;> simp [updateCamera_player]
    · left
      refine ⟨?_, ?_, ?_⟩ <;> simp [updateCamera_player]
    · left
      refine ⟨?_, ?_, ?_⟩ <;> simp [updateCamera_player]

/-- Velocity bound after the physics section. -/
theorem physics_result_vel_bounded (st : GameState)
    (hacc : 0 ≤ st.player.acc) (hterm : 0 ≤ st.player.terminalVel)
    (hx : |st.player.xVel| ≤ st.player.terminalVel)
    (hy : |st.player.yVel| ≤ st.player.terminalVel) :
    |(physicsStep (checkInteractables st)).player.xVel| ≤
        (physicsStep (checkInteractables st)).player.terminalVel ∧
    |(physicsStep (checkInteractables st)).player.yVel| ≤
        (physicsStep (checkInteractables st)).player.terminalVel := by
  rw [physicsStep_player]
  simp only [checkInteractables_player, checkInteractables_keysPressed,
    checkInteractables_camera]
  constructor
  · exact abs_nextXVel_le _ _ hacc hterm hx
  · exact abs_nextYVel_le _ _ hacc hterm hy

/-- C10: assuming non-negative acceleration and terminal velocity, the
invariant that both velocity components are bounded by the terminal
velocity in absolute value is preserved by every (non-throwing) frame, for
every key state: the physics clamps with max/min and every interaction
route zeroes the velocity or leaves it unchanged. -/
theorem updatePlayerPosition_velocity_bounded (st st' : GameState)
    (r : Option PendingRebound)
    (hacc : 0 ≤ st.player.acc) (hterm : 0 ≤ st.player.terminalVel)
    (hx : |st.player.xVel| ≤ st.player.terminalVel)
    (hy : |st.player.yVel| ≤ st.player.terminalVel)
    (h : updatePlayerPosition st = some (st', r)) :
    |st'.player.xVel| ≤ st'.player.terminalVel ∧
    |st'.player.yVel| ≤ st'.player.terminalVel := by
  rcases hgm : getMap st.game st.player.location with _ | m
  · simp only [updatePlayerPosition, hgm] at h
    simp only [Option.some.injEq, Prod.mk.injEq] at h
    obtain ⟨ho, -⟩ := h
    subst ho
    exact ⟨hx, hy⟩
  · simp only [updatePlayerPosition, hgm] at h
    by_cases hsp : (checkInteractables st).keysPressed.space ≠ 0
    · rw [if_pos hsp] at h
      rcases hcur : (getMap (checkInteractables st).game
          (checkInteractables st).player.location).bind GameMap.currentInteractable
        with _ | obj
      · rw [hcur] at h
        simp only [Option.some.injEq, Prod.mk.injEq] at h
        obtain ⟨ho, -⟩ := h
        subst ho
        exact physics_result_vel_bounded st hacc hterm hx hy
      · rw [hcur] at h
        rcases interactionStep_player_vel _ _ _ _ h with ⟨hx', hy', ht'⟩ | ⟨hx', hy', ht'⟩
        · rw [hx', hy', ht', checkInteractables_player]
          exact ⟨hx, hy⟩
        · rw [hx', hy', ht', checkInteractables_player]
          constructor <;> simpa using hterm
    · rw [if_neg hsp] at h
      simp only [Option.some.injEq, Prod.mk.injEq] at h
      obtain ⟨ho, -⟩ := h
      subst ho
      exact physics_result_vel_bounded st hacc hterm hx hy

/-- Witness for C10 at the fixture state. -/
theorem updatePlayerPosition_velocity_bounded_witness :
    ∃ st' r, updatePlayerPosition c1St = some (st', r) ∧
      |st'.player.xVel| ≤ st'.player.terminalVel ∧
      |st'.player.yVel| ≤ st'.player.terminalVel := by
  have hup : updatePlayerPosition c1St = some (physicsStep (checkInteractables c1St), none) :=
    updatePlayerPosition_physics c1St c1Map rfl (Or.inl rfl)
  have hb := updatePlayerPosition_velocity_bounded c1St _ _
    (by norm_num [c1St, c1Player]) (by norm_num [c1St, c1Player])
    (by norm_num [c1St, c1Player]) (by norm_num [c1St, c1Player]) hup
  exact ⟨_, _, hup, hb.1, hb.2⟩

theorem lookup_cooldownsSet (l : List (Nat × ℚ)) (k : Nat) (v : ℚ) :
    (cooldownsSet l k v).lookup k = some v := by
  simp [cooldownsSet, List.lookup_cons]

/-- Counterexample to C8 as stated: the source guards the cooldown with
`if (lastPlayedTime)`, a JS truthiness test, so a sound first played at
`audioContext.currentTime = 0` records a falsy time and the second call
only 100 ms later (cooldown 1000 ms) still returns a controller instead of
null. -/
theorem playSound_cooldown_cex :
    (playSound (AudioEngineState.mk []) 0 1 false 1000).2 = true ∧
    ((1 : ℚ) / 10 - 0 < 1000 / 1000) ∧
    (playSound (playSound (AudioEngineState.mk []) 0 1 false 1000).1
        (1 / 10) 1 false 1000).2 = true := by
  refine ⟨rfl, by norm_num, rfl⟩

/-- C8 (amended): the cooldown behaves as claimed whenever the recorded
first-play time is non-zero: a second call with the same buffer strictly
within `timeout` ms returns null (no controller, no playback), and a call
once at least `timeout` ms have passed returns a controller.  (A first call
at context time exactly 0 records a falsy time and is not honoured.) -/
theorem playSound_cooldown (e : AudioEngineState) (now1 now2 : ℚ) (buffer : Nat)
    (l1 l2 : Bool) (timeout : ℚ)
    (hto : 0 < timeout) (hpos : now1 ≠ 0)
    (hplayed : (playSound e now1 buffer l1 timeout).2 = true)
    (hwin : now2 - now1 < timeout / 1000) :
    (playSound (playSound e now1 buffer l1 timeout).1 now2 buffer l2 timeout).2 = false ∧
    ∀ now3 : ℚ, timeout / 1000 ≤ now3 - now1 →
      (playSound (playSound e now1 buffer l1 timeout).1 now3 buffer l2 timeout).2 = true := by
  have he1 : (playSound e now1 buffer l1 timeout).1 =
      AudioEngineState.mk (cooldownsSet e.soundCooldowns buffer now1) := by
    rcases hres : playSound e now1 buffer l1 timeout with ⟨e1, flag⟩
    rw [hres] at hplayed
    simp only at hplayed
    simp only [playSound] at hres
    split_ifs at hres with c1 c2 c3
    · injection hres with h1 h2
      exact absurd (h2.trans hplayed) (by simp)
    · injection hres with h1 h2
      exact h1.symm
    · exact absurd hto c1
    · exact absurd hto c1
  constructor
  · rw [he1]
    simp [playSound, lookup_cooldownsSet, hto, hpos, hwin]
  · intro now3 hge
    rw [he1]
    simp [playSound, lookup_cooldownsSet, hto, hpos, not_lt.mpr hge]

/-- Witness for the amended C8: first play at context time 1 s with a
1000 ms cooldown; a call at 1.5 s returns null, any call from 2 s on
returns a controller. -/
theorem playSound_cooldown_witness :
    (playSound (playSound (AudioEngineState.mk []) 1 1 false 1000).1
        (3 / 2) 1 false 1000).2 = false ∧
    ∀ now3 : ℚ, (1000 : ℚ) / 1000 ≤ now3 - 1 →
      (playSound (playSound (AudioEngineState.mk []) 1 1 false 1000).1
          now3 1 false 1000).2 = true :=
  playSound_cooldown (AudioEngineState.mk []) 1 (3 / 2) 1 false false 1000
    (by norm_num) (by norm_num) rfl (by norm_num)
